import Mathlib

/-!
Verification of the tg-digest aggregation/digest scheduler.

Shallow embedding of the relevant parts of the repository:
  * `src/models.py`          — `ChannelPost`, `ChannelConfig` (with `from_dict`/`to_dict`)
  * `src/config_manager.py`  — `ConfigManager.add_channel`
  * `src/channel_manager.py` — `ChannelManager` state, `process_channel_post`,
    `_extract_message_text`, `_detect_media_type`, `create_and_post_digest`,
    one iteration of `start_posting_loop`
  * `src/channel_bot.py`     — `ChannelBot` state, `add_channel`,
    `handle_new_message`, the failed-task restart scan of `run`

Conventions of the embedding:
  * Python `None` becomes `Option.none`; a Python value that may be `None`
    has an `Option` type.
  * Python truthiness of strings (`None` and `""` are falsy) is `pyStrTruthy`;
    of possibly-absent integers (`None` and `0` falsy) `pyNatTruthy`;
    Python `a or b` on strings is `pyOrStr`.
  * Exceptions are `Except PyErr`; a raised, uncaught exception is
    `Except.error`.
  * `datetime` values are integers (a timestamp in seconds); the comparison
    `total_seconds() / 60 >= interval` in `start_posting_loop` is embedded as
    `60 * interval ≤ current - last` (equivalent over the reals since 60 > 0).
  * Logging calls are omitted: they do not change the modelled state.
-/

/-- Python exception kinds raised by the modelled code paths. -/
inductive PyErr where
  | typeError
  | keyError
  | attributeError
deriving DecidableEq, Repr

instance {ε α : Type} [DecidableEq ε] [DecidableEq α] : DecidableEq (Except ε α) :=
  fun a b =>
  match a, b with
  | Except.error e, Except.error f =>
      if h : e = f then isTrue (by rw [h])
      else isFalse (fun hc => h (Except.error.inj hc))
  | Except.error _, Except.ok _ => isFalse (fun hc => Except.noConfusion hc)
  | Except.ok _, Except.error _ => isFalse (fun hc => Except.noConfusion hc)
  | Except.ok x, Except.ok y =>
      if h : x = y then isTrue (by rw [h])
      else isFalse (fun hc => h (Except.ok.inj hc))

/-- Python truthiness of an optional string: `None` and `""` are falsy. -/
def pyStrTruthy : Option String → Bool
  | none => false
  | some s => s ≠ ""

/-- Python truthiness of an optional natural (e.g. `media_group_id`):
`None` and `0` are falsy. -/
def pyNatTruthy : Option Nat → Bool
  | none => false
  | some n => n ≠ 0

/-- Python `a or b` on two possibly-`None` strings: the first operand if it
is truthy, otherwise the second (whatever its truthiness). -/
def pyOrStr (a b : Option String) : Option String :=
  if pyStrTruthy a then a else b

/-- `models.ChannelPost` (src/models.py lines 5-11).  The dataclass annotates
`channel_title`/`text` as `str` but Python does not enforce it; the values
actually stored by `process_channel_post` may be `None`, so both are
`Option String` here.  `date` is the message timestamp. -/
structure ChannelPost where
  channel_title : Option String
  text : Option String
  date : Int
  link : Option String
  media_type : Option String
deriving DecidableEq, Repr

/-- `models.ChannelConfig` (src/models.py lines 13-19).  `mistral_agent_id`
is annotated `str` but `from_dict` may store `None` (`data.get` with no
default), hence `Option String`. -/
structure ChannelConfig where
  source_channels : List String
  target_channel : String
  mistral_agent_id : Option String
  channel_theme : String
  post_interval_minutes : Int
deriving DecidableEq, Repr

/-- The keyword arguments of a `ChannelConfig(...)` dataclass construction.
A field is `none` when the keyword is not passed at the call site; for
`mistral_agent_id` the passed value may itself be Python `None`. -/
structure ChannelConfigKwargs where
  source_channels : Option (List String) := none
  target_channel : Option String := none
  mistral_agent_id : Option (Option String) := none
  channel_theme : Option String := none
  post_interval_minutes : Option Int := none
deriving DecidableEq, Repr

/-- The generated `__init__` of the `ChannelConfig` dataclass: all five
fields are required (none has a default in src/models.py lines 13-19), so a
construction that omits one raises `TypeError`. -/
def ChannelConfig.fromKwargs (k : ChannelConfigKwargs) : Except PyErr ChannelConfig :=
  match k.source_channels, k.target_channel, k.mistral_agent_id,
        k.channel_theme, k.post_interval_minutes with
  | some sc, some tc, some ag, some th, some iv =>
      Except.ok ⟨sc, tc, ag, th, iv⟩
  | _, _, _, _, _ => Except.error PyErr.typeError

/-- A Python dict holding (at most) the keys `ChannelConfig.from_dict`
reads.  A field is `none` when the key is absent; for `mistral_agent_id`
the stored value may itself be `None`. -/
structure PyDict where
  source_channels : Option (List String) := none
  target_channel : Option String := none
  mistral_agent_id : Option (Option String) := none
  channel_theme : Option String := none
  post_interval_minutes : Option Int := none
deriving DecidableEq, Repr

/-- `ChannelConfig.from_dict` (src/models.py lines 21-29).
`data['source_channels']`, `data['target_channel']` and
`data['post_interval_minutes']` raise `KeyError` when absent;
`data.get('mistral_agent_id')` defaults to `None`;
`data.get('channel_theme', '')` defaults to `""`.  `int(...)` on an
integer value is the identity. -/
def ChannelConfig.from_dict (data : PyDict) : Except PyErr ChannelConfig :=
  match data.source_channels, data.target_channel, data.post_interval_minutes with
  | some sc, some tc, some iv =>
      Except.ok ⟨sc, tc, data.mistral_agent_id.getD none,
                 data.channel_theme.getD "", iv⟩
  | _, _, _ => Except.error PyErr.keyError

/-- `ChannelConfig.to_dict` (src/models.py lines 31-37): emits the four keys
`source_channels`, `target_channel`, `mistral_agent_id`,
`post_interval_minutes` — and omits `channel_theme`. -/
def ChannelConfig.to_dict (c : ChannelConfig) : PyDict :=
  { source_channels := some c.source_channels
    target_channel := some c.target_channel
    mistral_agent_id := some c.mistral_agent_id
    post_interval_minutes := some c.post_interval_minutes }

/-- The state of `config_manager.ConfigManager`: the loaded global config
(only the `default_mistral_agent` entry is read by `add_channel`), the
channel list, and a counter of `save_channels` file writes (so that "the
channels file is written" is observable in the model). -/
structure ConfigManager where
  default_mistral_agent : String
  channels : List ChannelConfig
  save_count : Nat
deriving DecidableEq, Repr

/-- `ConfigManager.add_channel` (src/config_manager.py lines 29-48).
The body first substitutes the default agent for a falsy `mistral_agent_id`,
then constructs `ChannelConfig(source_channels=..., target_channel=...,
mistral_agent_id=..., post_interval_minutes=...)` — passing only four of the
five required dataclass fields (`channel_theme` is not passed) — and only
after that checks for a duplicate `target_channel`, appends and saves. -/
def ConfigManager.add_channel (cm : ConfigManager) (target_channel : String)
    (source_channels : List String) (interval : Int)
    (mistral_agent_id : Option String) : Except PyErr (ConfigManager × Bool) :=
  let agent := pyOrStr mistral_agent_id (some cm.default_mistral_agent)
  match ChannelConfig.fromKwargs
      { source_channels := some source_channels
        target_channel := some target_channel
        mistral_agent_id := some agent
        post_interval_minutes := some interval } with
  | Except.error e => Except.error e
  | Except.ok cfg =>
      if cm.channels.any (fun c => c.target_channel = target_channel) then
        Except.ok (cm, false)
      else
        Except.ok ({ cm with channels := cm.channels ++ [cfg],
                             save_count := cm.save_count + 1 }, true)

/-- Number of parameters of `ConfigManager.add_channel` after `self`
(src/config_manager.py lines 29-30): `target_channel`, `source_channels`,
`interval`, `mistral_agent_id`. -/
def ConfigManager.add_channel_param_count : Nat := 4

/-- Number of positional arguments `AdminBot.handle_theme_input` passes to
`config_manager.add_channel` (src/admin_bot.py lines 413-419): target,
sources, interval, agent id, theme. -/
def AdminBot.theme_input_add_channel_arg_count : Nat := 5

/-- A message's chat, as read by the handlers: `username` and `title` may be
absent. -/
structure Chat where
  username : Option String
  title : Option String
deriving DecidableEq, Repr

/-- The fields of a pyrogram `Message` that the handlers read.  `service`
and `sponsor` model the truthiness of `message.service` /
`hasattr(message, 'sponsor') and message.sponsor`; `media` models the
truthiness of `message.media`; the per-kind flags model the truthiness of
`message.photo`, `message.video`, etc. -/
structure Message where
  chat : Option Chat
  text : Option String
  caption : Option String
  service : Bool
  sponsor : Bool
  media : Bool
  media_group_id : Option Nat
  photo : Bool
  video : Bool
  document : Bool
  animation : Bool
  sticker : Bool
  date : Int
  link : Option String
deriving DecidableEq, Repr

/-- `ChannelManager._extract_message_text` (src/channel_manager.py lines
81-93): `text = message.text or message.caption`; if that is falsy and the
message has media, try the caption for photo/video/document; return the
stripped text when truthy, else `None`. -/
def extract_message_text (m : Message) : Option String :=
  let text := pyOrStr m.text m.caption
  let text :=
    if pyStrTruthy text = false ∧ m.media then
      if m.photo ∧ pyStrTruthy m.caption then m.caption
      else if m.video ∧ pyStrTruthy m.caption then m.caption
      else if m.document ∧ pyStrTruthy m.caption then m.caption
      else text
    else text
  if pyStrTruthy text then some ((text.getD "").trim) else none

/-- `ChannelManager._detect_media_type` (src/channel_manager.py lines
95-113): the `media_group_id` branch recognises only photo/video groups;
otherwise the elif-chain over the media kinds; `None` when nothing
matches. -/
def detect_media_type (m : Message) : Option String :=
  if pyNatTruthy m.media_group_id then
    if m.photo then some "photo_group"
    else if m.video then some "video_group"
    else none
  else if m.photo then some "photo"
  else if m.video then some "video"
  else if m.document then some "document"
  else if m.animation then some "animation"
  else if m.sticker then some "sticker"
  else none

/-- The mutable state of one `channel_manager.ChannelManager`
(src/channel_manager.py lines 13-24).  `posting_task` models the
`posting_task` ATTRIBUTE of the manager object: `none` means the attribute
has never been assigned (as in `__init__`, which does not set it), so that
reading it raises `AttributeError`; `some id` means it was assigned task
`id` (the only assignment in the repository is `channel_bot.run`
line 170). -/
structure ChannelManager where
  config : ChannelConfig
  posts : List ChannelPost
  last_post_time : Int
  is_running : Bool
  posting_in_progress : Bool
  posting_task : Option Nat
deriving DecidableEq, Repr

/-- `ChannelManager.__init__` (src/channel_manager.py lines 13-24): empty
post list, `last_post_time = datetime.now()` (the parameter `now`),
`is_running = True`, `posting_in_progress = False`; the `posting_task`
attribute is not assigned. -/
def ChannelManager.new (config : ChannelConfig) (now : Int) : ChannelManager :=
  { config := config
    posts := []
    last_post_time := now
    is_running := true
    posting_in_progress := false
    posting_task := none }

/-- `ChannelManager.process_channel_post` (src/channel_manager.py lines
29-79): skip when the chat or its username is missing, when the username is
not a configured source, when the message is a service or sponsored
message; then, under the buffer lock, extract text and media kind and
append a `ChannelPost` only if at least one of them is truthy.  The
enclosing `try/except` absorbs every error, so the function is total on the
state. -/
def process_channel_post (st : ChannelManager) (m : Message) : ChannelManager :=
  match m.chat with
  | none => st
  | some chat =>
      if pyStrTruthy chat.username = false then st
      else if (chat.username.getD "") ∉ st.config.source_channels then st
      else if m.service then st
      else if m.sponsor then st
      else
        let text := extract_message_text m
        let media_type := detect_media_type m
        if pyStrTruthy text ∨ pyStrTruthy media_type then
          { st with posts := st.posts ++
              [{ channel_title := pyOrStr chat.title chat.username
                 text := text
                 date := m.date
                 link := m.link
                 media_type := media_type }] }
        else st

/-- `ChannelManager.create_and_post_digest` (src/channel_manager.py lines
128-170), as a function of the manager state, the outcome of the
(synchronous) `mistral.agents.complete` call, the outcome of the awaited
`app.send_message` call, and the completion time `now`:
  * if `posting_in_progress` is already set, return immediately (no-op);
  * otherwise set the flag and take the lock;
  * with an empty buffer, only reset `last_post_time` to now;
  * a generation error is caught by the outer handler: state unchanged;
  * a publish error is caught by the inner handler: state unchanged;
  * on publish success, clear the buffer and reset `last_post_time`;
  * the `finally` clause clears `posting_in_progress` on every exit path. -/
def create_and_post_digest (st : ChannelManager) (gen : Except Unit String)
    (pub : Except Unit Unit) (now : Int) : ChannelManager :=
  if st.posting_in_progress then st
  else
    let st1 := { st with posting_in_progress := true }
    let st2 :=
      if st1.posts.isEmpty then { st1 with last_post_time := now }
      else
        match gen with
        | Except.error _ => st1
        | Except.ok _digest_text =>
            match pub with
            | Except.error _ => st1
            | Except.ok _ => { st1 with posts := [], last_post_time := now }
    { st2 with posting_in_progress := false }

/-- One iteration of `ChannelManager.start_posting_loop`
(src/channel_manager.py lines 178-195) acting on the manager state:
`minutes_elapsed >= post_interval_minutes` (with
`minutes_elapsed = (current - last_post_time)/60`) is embedded as
`60 * interval ≤ current - last_post_time`; when it holds and no posting is
in progress, `create_and_post_digest` runs (its completion time is the
parameter `completion`); otherwise the state is untouched (the heartbeat
log and the loop-local `last_check_time` do not touch the manager
state). -/
def posting_loop_iter (st : ChannelManager) (current completion : Int)
    (gen : Except Unit String) (pub : Except Unit Unit) : ChannelManager :=
  if 60 * st.config.post_interval_minutes ≤ current - st.last_post_time
      ∧ st.posting_in_progress = false then
    create_and_post_digest st gen pub completion
  else st

/-- Lookup in a Python dict modelled as an association list (first match). -/
def dictGet {α : Type} (d : List (String × α)) (k : String) : Option α :=
  match d with
  | [] => none
  | (k', v) :: rest => if k' = k then some v else dictGet rest k

/-- Assignment `d[k] = v` in a Python dict modelled as an association list:
replace the value in place when the key exists, append otherwise. -/
def dictSet {α : Type} (d : List (String × α)) (k : String) (v : α) :
    List (String × α) :=
  match d with
  | [] => [(k, v)]
  | (k', v') :: rest =>
      if k' = k then (k, v) :: rest else (k', v') :: dictSet rest k v

/-- The state of `channel_bot.ChannelBot` relevant to the claims: the
`managers` dict keyed by target channel, the set of running task ids (as a
list), and a counter supplying fresh task ids for `asyncio.create_task`. -/
structure ChannelBot where
  managers : List (String × ChannelManager)
  running_tasks : List Nat
  next_task : Nat
deriving DecidableEq, Repr

/-- `ChannelBot.add_channel` (src/channel_bot.py lines 48-70) together with
the `_create_manager` it calls (lines 38-46): build a `ChannelConfig` with
`mistral_agent_id or default` and `theme or ''`, construct a fresh manager,
store it under `managers[target_channel]` (overwriting any existing entry —
there is no duplicate check), create and record a new task for its loop,
and return `True`.  Nothing in the body can raise, so the `except` branch
returning `False` is unreachable. -/
def ChannelBot.add_channel (bot : ChannelBot) (target_channel : String)
    (source_channels : List String) (interval : Int)
    (mistral_agent_id : Option String) (theme : Option String)
    (default_agent : String) (now : Int) : ChannelBot × Bool :=
  let cfg : ChannelConfig :=
    { source_channels := source_channels
      target_channel := target_channel
      mistral_agent_id := pyOrStr mistral_agent_id (some default_agent)
      channel_theme := (pyOrStr theme (some "")).getD ""
      post_interval_minutes := interval }
  let mgr := ChannelManager.new cfg now
  ({ bot with managers := dictSet bot.managers target_channel mgr
              running_tasks := bot.running_tasks ++ [bot.next_task]
              next_task := bot.next_task + 1 }, true)

/-- `ChannelBot.handle_new_message` (src/channel_bot.py lines 104-118):
return early when the chat or its username is missing; otherwise call
`process_channel_post` on every manager whose `source_channels` contain the
username.  The surrounding `try/except` absorbs every error, so the
function is total on the state. -/
def handle_new_message (bot : ChannelBot) (m : Message) : ChannelBot :=
  match m.chat with
  | none => bot
  | some chat =>
      if pyStrTruthy chat.username = false then bot
      else
        { bot with managers := bot.managers.map (fun p =>
            if (chat.username.getD "") ∈ p.2.config.source_channels then
              (p.1, process_channel_post p.2 m)
            else p) }

/-- The inner restart scan of `ChannelBot.run` (src/channel_bot.py lines
163-170) for one failed task: iterate over `managers.items()` and compare
`manager.posting_task == task`.  Reading `posting_task` on a manager whose
attribute was never assigned (`none`) raises `AttributeError`.  On a match
the manager's `posting_task` is reassigned to the fresh task id.  The
returned flag records whether some manager matched (so a task must be
added to `running_tasks`). -/
def restart_scan : List (String × ChannelManager) → Nat → Nat →
    Except PyErr (List (String × ChannelManager) × Bool)
  | [], _, _ => Except.ok ([], false)
  | (t, mgr) :: rest, task, newId =>
      match mgr.posting_task with
      | none => Except.error PyErr.attributeError
      | some pt =>
          match restart_scan rest task newId with
          | Except.error e => Except.error e
          | Except.ok (rest', restarted) =>
              if pt = task then
                Except.ok ((t, { mgr with posting_task := some newId }) :: rest',
                           true)
              else
                Except.ok ((t, mgr) :: rest', restarted)

/-- Processing of one failed worker task by the supervision loop of
`ChannelBot.run` (src/channel_bot.py lines 156-170): the `await task`
re-raises the worker's exception, which the `except` clause catches and
logs; the restart scan then runs over all managers.  An exception raised
inside that scan (the `AttributeError` of an unassigned `posting_task`)
escapes the `while` loop, is logged by the outer handler of `run`
(lines 174-176) and re-raised, terminating the supervision loop. -/
def supervise_failed_task (bot : ChannelBot) (task : Nat) :
    Except PyErr ChannelBot :=
  match restart_scan bot.managers task bot.next_task with
  | Except.error e => Except.error e
  | Except.ok (ms, restarted) =>
      if restarted then
        Except.ok { bot with managers := ms
                             running_tasks := bot.running_tasks ++ [bot.next_task]
                             next_task := bot.next_task + 1 }
      else
        Except.ok { bot with managers := ms }

/-- Abstract two-counter view of the mutual-exclusion mechanism of
`create_and_post_digest` for ONE manager: `inFlight` is the
`posting_in_progress` flag, `active` counts the productions currently
between entry (line 133) and the `finally` (line 170). -/
structure ProdState where
  inFlight : Bool
  active : Nat
deriving DecidableEq, Repr

/-- The possible atomic transitions of the flag mechanism.  The check at
line 130 and the assignment at line 133 form one atomic step: no `await`
lies between them, so under cooperative (asyncio) scheduling no other task
can run in between.  `triggerSkip` is the early return of a call that finds
the flag set; `triggerEnter` a call that enters; `finish` the `finally`
clause of a running production, taken on every exit path. -/
inductive ProdStep : ProdState → ProdState → Prop where
  | triggerSkip (s : ProdState) : s.inFlight = true → ProdStep s s
  | triggerEnter (s : ProdState) : s.inFlight = false →
      ProdStep s ⟨true, s.active + 1⟩
  | finish (s : ProdState) : 0 < s.active → ProdStep s ⟨false, s.active - 1⟩

/-- States reachable from the initial state (flag clear, nothing active)
by any interleaving of triggers and completions. -/
inductive ProdReachable : ProdState → Prop where
  | init : ProdReachable ⟨false, 0⟩
  | step (s s' : ProdState) : ProdReachable s → ProdStep s s' → ProdReachable s'

/-- One step of the coroutine body of `create_and_post_digest`, tagged with
whether executing it can yield control to the event loop. -/
structure CoAction where
  name : String
  isAwait : Bool
deriving DecidableEq, Repr

/-- The body of `create_and_post_digest` (src/channel_manager.py lines
128-170) on the path that reaches the publish call, in execution order,
with each step tagged `isAwait := true` exactly when the source awaits it:
the `async with self.post_lock` acquisition (line 134) and
`await self.app.send_message(...)` (line 156) are awaited;
`self.mistral.agents.complete(...)` (line 144) is an ordinary synchronous
call — it is not awaited. -/
def produceBody : List CoAction :=
  [ ⟨"check posting_in_progress", false⟩
  , ⟨"set posting_in_progress", false⟩
  , ⟨"post_lock.acquire", true⟩
  , ⟨"empty-buffer check", false⟩
  , ⟨"prepare_digest_data", false⟩
  , ⟨"mistral.agents.complete", false⟩
  , ⟨"app.send_message", true⟩
  , ⟨"posts.clear and reset last_post_time", false⟩
  , ⟨"post_lock.release", false⟩
  , ⟨"clear posting_in_progress", false⟩ ]

/-! ### Concrete fixtures used by witnesses and counterexamples -/

/-- A configuration watching one source channel with a 1-minute interval. -/
def cfgEx : ChannelConfig :=
  { source_channels := ["src"]
    target_channel := "tgt"
    mistral_agent_id := some "agent-1"
    channel_theme := "tech"
    post_interval_minutes := 1 }

/-- A buffered post. -/
def postEx : ChannelPost :=
  { channel_title := some "Src"
    text := some "hello"
    date := 10
    link := none
    media_type := none }

/-- A manager that has one buffered post, last flushed at time 50, with no
production in flight. -/
def mgrIdle : ChannelManager :=
  { config := cfgEx
    posts := [postEx]
    last_post_time := 50
    is_running := true
    posting_in_progress := false
    posting_task := none }

/-- The same manager with a production marked in flight. -/
def mgrBusy : ChannelManager :=
  { mgrIdle with posting_in_progress := true }

/-- A manager whose flush is due and whose buffer is empty. -/
def mgrEmptyDue : ChannelManager :=
  { config := cfgEx
    posts := []
    last_post_time := 0
    is_running := true
    posting_in_progress := false
    posting_task := none }

/-- The chat of the example source channel. -/
def chatEx : Chat := { username := some "src", title := some "Source" }

/-- A configuration with a non-empty theme, exhibiting that the dict
round trip is not the identity. -/
def themedConfig : ChannelConfig :=
  { source_channels := ["srcA"]
    target_channel := "dst"
    mistral_agent_id := some "agent-2"
    channel_theme := "news"
    post_interval_minutes := 30 }

/-! ### Theorems for the claims -/

/-- Claim C9: for every `ChannelConfig c`, the round trip
`ChannelConfig.from_dict (c.to_dict)` preserves `source_channels`,
`target_channel`, `mistral_agent_id` and `post_interval_minutes` but
replaces `channel_theme` with the empty string (because `to_dict` omits
that key), so the round trip is not the identity. -/
theorem c9_round_trip_drops_theme :
    (∀ c : ChannelConfig,
      ChannelConfig.from_dict (ChannelConfig.to_dict c) =
        Except.ok { c with channel_theme := "" }) ∧
    ChannelConfig.from_dict (ChannelConfig.to_dict themedConfig) ≠
      Except.ok themedConfig := by
  constructor
  · intro c; cases c; rfl
  · decide

/-- Witness for C9 at the concrete configuration `themedConfig`. -/
theorem c9_round_trip_drops_theme_witness :
    ChannelConfig.from_dict (ChannelConfig.to_dict themedConfig) =
      Except.ok { themedConfig with channel_theme := "" } :=
  c9_round_trip_drops_theme.1 themedConfig

/-- Claim C8: every call to `ConfigManager.add_channel` raises `TypeError`
before the duplicate check runs, because it constructs a `ChannelConfig`
without the required `channel_theme` field — so it never returns a boolean,
never appends to the channel list and never writes the channels file;
moreover the admin front end passes five positional arguments to this
four-parameter method. -/
theorem c8_config_add_channel_type_error :
    (∀ (cm : ConfigManager) (target : String) (sources : List String)
        (interval : Int) (agent : Option String),
      ConfigManager.add_channel cm target sources interval agent =
        Except.error PyErr.typeError) ∧
    ConfigManager.add_channel_param_count <
      AdminBot.theme_input_add_channel_arg_count := by
  exact ⟨fun cm target sources interval agent => rfl, by decide⟩

/-- Witness for C8: a concrete call, on a state that even contains a
duplicate of the target, still raises `TypeError`. -/
theorem c8_config_add_channel_type_error_witness :
    ConfigManager.add_channel
        { default_mistral_agent := "agent-1", channels := [cfgEx], save_count := 0 }
        "tgt" ["src"] 5 none =
      Except.error PyErr.typeError :=
  c8_config_add_channel_type_error.1 _ "tgt" ["src"] 5 none

/-- Claim C10: a routed message from a matching source that has neither
extractable text (text or caption, after stripping) nor a recognised media
kind leaves the worker's buffer — indeed, the whole manager state —
unchanged. -/
theorem c10_contentless_message_dropped :
    ∀ (st : ChannelManager) (m : Message) (chat : Chat),
      m.chat = some chat →
      pyStrTruthy chat.username = true →
      (chat.username.getD "") ∈ st.config.source_channels →
      m.service = false →
      m.sponsor = false →
      pyStrTruthy (extract_message_text m) = false →
      pyStrTruthy (detect_media_type m) = false →
      process_channel_post st m = st := by
  intro st m chat hchat husr hmem hserv hspon htext hmedia
  unfold process_channel_post
  rw [hchat]
  simp [husr, hmem, hserv, hspon, htext, hmedia]

/-- Witness for C10: a matching message with no text, no caption and no
media is dropped. -/
theorem c10_contentless_message_dropped_witness :
    process_channel_post mgrIdle
        { chat := some chatEx
          text := none
          caption := none
          service := false
          sponsor := false
          media := false
          media_group_id := none
          photo := false
          video := false
          document := false
          animation := false
          sticker := false
          date := 17
          link := none } =
      mgrIdle :=
  c10_contentless_message_dropped mgrIdle _ chatEx rfl (by decide) (by decide)
    rfl rfl (by decide) (by decide)

/-- Claim C2: a digest attempt that fails — the generation call raises, or
the publish call raises — leaves the post sequence and `last_post_time`
exactly as they were before the attempt, and clears the in-flight flag, so
the next poll retries without waiting a fresh interval. -/
theorem c2_failed_flush_keeps_state :
    ∀ (st : ChannelManager) (gen : Except Unit String) (pub : Except Unit Unit)
      (now : Int),
      st.posting_in_progress = false →
      st.posts ≠ [] →
      (gen = Except.error () ∨ pub = Except.error ()) →
      (create_and_post_digest st gen pub now).posts = st.posts ∧
      (create_and_post_digest st gen pub now).last_post_time = st.last_post_time ∧
      (create_and_post_digest st gen pub now).posting_in_progress = false := by
  intro st gen pub now hflag hposts hfail
  have hne : st.posts.isEmpty = false := by
    cases hp : st.posts with
    | nil => exact absurd hp hposts
    | cons a l => rfl
  unfold create_and_post_digest
  rcases hfail with h | h
  · subst h
    simp [hflag, hne]
  · subst h
    cases gen with
    | error e => simp [hflag, hne]
    | ok d => simp [hflag, hne]

/-- Witness for C2: a failing generation call on a one-post buffer changes
neither the buffer nor the last-flush time. -/
theorem c2_failed_flush_keeps_state_witness :
    (create_and_post_digest mgrIdle (Except.error ()) (Except.ok ()) 999).posts =
        mgrIdle.posts ∧
    (create_and_post_digest mgrIdle (Except.error ()) (Except.ok ()) 999).last_post_time =
        mgrIdle.last_post_time ∧
    (create_and_post_digest mgrIdle (Except.error ()) (Except.ok ()) 999).posting_in_progress =
        false :=
  c2_failed_flush_keeps_state mgrIdle (Except.error ()) (Except.ok ()) 999 rfl
    (by decide) (Or.inl rfl)

lemma prodReachable_active_eq :
    ∀ s : ProdState, ProdReachable s → s.active = (if s.inFlight then 1 else 0) := by
  intro s h
  induction h with
  | init => rfl
  | step s s' _hr hstep ih =>
      cases hstep with
      | triggerSkip hf => exact ih
      | triggerEnter hf =>
          rw [hf] at ih
          simp at ih
          simp [ih]
      | finish hpos =>
          by_cases hf : s.inFlight
          · rw [if_pos hf] at ih
            simp [ih]
          · rw [if_neg hf] at ih
            omega

/-- Claim C3: at most one digest production is ever active per worker under
any interleaving of triggers and completions of the flag mechanism; a call
made while `posting_in_progress` is set returns immediately as a no-op, and
the flag is cleared on every exit path of `create_and_post_digest`. -/
theorem c3_single_flight :
    (∀ s : ProdState, ProdReachable s → s.active ≤ 1) ∧
    (∀ (st : ChannelManager) (gen : Except Unit String) (pub : Except Unit Unit)
        (now : Int),
      st.posting_in_progress = true → create_and_post_digest st gen pub now = st) ∧
    (∀ (st : ChannelManager) (gen : Except Unit String) (pub : Except Unit Unit)
        (now : Int),
      st.posting_in_progress = false →
        (create_and_post_digest st gen pub now).posting_in_progress = false) := by
  refine ⟨?_, ?_, ?_⟩
  · intro s h
    rw [prodReachable_active_eq s h]
    by_cases hf : s.inFlight <;> simp [hf]
  · intro st gen pub now hflag
    unfold create_and_post_digest
    simp [hflag]
  · intro st gen pub now hflag
    unfold create_and_post_digest
    simp [hflag]

/-- Witness for C3: the state reached by one entering trigger has one
active production; a call on a busy manager is a no-op; an entered call
with a failing generation clears the flag. -/
theorem c3_single_flight_witness :
    (⟨true, 1⟩ : ProdState).active ≤ 1 ∧
    create_and_post_digest mgrBusy (Except.ok "d") (Except.ok ()) 7 = mgrBusy ∧
    (create_and_post_digest mgrIdle (Except.error ()) (Except.ok ()) 7).posting_in_progress =
      false :=
  ⟨c3_single_flight.1 ⟨true, 1⟩
      (ProdReachable.step _ _ ProdReachable.init (ProdStep.triggerEnter _ rfl)),
    c3_single_flight.2.1 mgrBusy (Except.ok "d") (Except.ok ()) 7 rfl,
    c3_single_flight.2.2 mgrIdle (Except.error ()) (Except.ok ()) 7 rfl⟩

/-- Counterexample to C4 as stated: an iteration whose flush is due, with
an empty buffer, resets `last_post_time` (to the attempt's completion time)
even though nothing was published — the publish collaborator here even
fails — contradicting "otherwise it is left unchanged by the attempt". -/
theorem c4_timer_reset_counterexample :
    posting_loop_iter mgrEmptyDue 60 61 (Except.ok "digest") (Except.error ()) =
      { mgrEmptyDue with last_post_time := 61 } ∧
    mgrEmptyDue.last_post_time = 0 ∧
    60 * mgrEmptyDue.config.post_interval_minutes ≤ 60 - mgrEmptyDue.last_post_time ∧
    mgrEmptyDue.posting_in_progress = false ∧
    mgrEmptyDue.posts = [] := by
  refine ⟨by decide, rfl, by decide, rfl, rfl⟩

/-- Claim C4 (amended): an iteration of the polling loop invokes
`create_and_post_digest` exactly when the elapsed time since
`last_post_time` reaches the configured interval and no flush is in
flight.  On a successful flush of a non-empty buffer, `last_post_time` is
reset to the completion time and the buffer cleared; on a failed
generation or publish call both are unchanged; when the buffer is empty at
flush time, `last_post_time` is also reset although nothing is
published. -/
theorem c4_loop_flush_behaviour :
    ∀ (st : ChannelManager) (current completion : Int)
      (gen : Except Unit String) (pub : Except Unit Unit) (g : String),
      ((¬ 60 * st.config.post_interval_minutes ≤ current - st.last_post_time) ∨
          st.posting_in_progress = true →
        posting_loop_iter st current completion gen pub = st) ∧
      (60 * st.config.post_interval_minutes ≤ current - st.last_post_time →
        st.posting_in_progress = false →
        st.posts = [] →
        posting_loop_iter st current completion gen pub =
          { st with last_post_time := completion }) ∧
      (60 * st.config.post_interval_minutes ≤ current - st.last_post_time →
        st.posting_in_progress = false →
        st.posts ≠ [] →
        gen = Except.ok g →
        pub = Except.ok () →
        posting_loop_iter st current completion gen pub =
          { st with posts := [], last_post_time := completion }) ∧
      (60 * st.config.post_interval_minutes ≤ current - st.last_post_time →
        st.posting_in_progress = false →
        st.posts ≠ [] →
        (gen = Except.error () ∨ pub = Except.error ()) →
        posting_loop_iter st current completion gen pub = st) := by
  intro st current completion gen pub g
  refine ⟨?_, ?_, ?_, ?_⟩
  · intro h
    unfold posting_loop_iter
    rcases h with h | h
    · rw [if_neg]
      intro hc
      exact h hc.1
    · rw [if_neg]
      intro hc
      rw [h] at hc
      exact absurd hc.2 (by decide)
  · intro hdue hflag hempty
    unfold posting_loop_iter create_and_post_digest
    rw [if_pos ⟨hdue, hflag⟩]
    simp [hflag, hempty]
  · intro hdue hflag hposts hgen hpub
    subst hgen; subst hpub
    have hne : st.posts.isEmpty = false := by
      cases hp : st.posts with
      | nil => exact absurd hp hposts
      | cons a l => rfl
    unfold posting_loop_iter create_and_post_digest
    rw [if_pos ⟨hdue, hflag⟩]
    simp [hflag, hne]
  · intro hdue hflag hposts hfail
    have hne : st.posts.isEmpty = false := by
      cases hp : st.posts with
      | nil => exact absurd hp hposts
      | cons a l => rfl
    unfold posting_loop_iter create_and_post_digest
    rw [if_pos ⟨hdue, hflag⟩]
    rcases hfail with h | h
    · subst h
      simp [hflag, hne]
      rw [← hflag]
    · subst h
      cases gen with
      | error e =>
          simp [hflag, hne]
          rw [← hflag]
      | ok d =>
          simp [hflag, hne]
          rw [← hflag]

/-- Witness for C4: an iteration before the interval has elapsed leaves the
manager untouched, and a due iteration whose generation call fails leaves
the buffer and the last-flush time untouched. -/
theorem c4_loop_flush_behaviour_witness :
    posting_loop_iter mgrIdle 51 52 (Except.ok "d") (Except.ok ()) = mgrIdle ∧
    posting_loop_iter mgrIdle 200 201 (Except.error ()) (Except.ok ()) = mgrIdle :=
  ⟨(c4_loop_flush_behaviour mgrIdle 51 52 (Except.ok "d") (Except.ok ()) "d").1
      (Or.inl (by decide)),
    (c4_loop_flush_behaviour mgrIdle 200 201 (Except.error ()) (Except.ok ()) "d").2.2.2
      (by decide) rfl (by decide) (Or.inl rfl)⟩

lemma dictGet_dictSet_self {α : Type} (d : List (String × α)) (k : String) (v : α) :
    dictGet (dictSet d k v) k = some v := by
  induction d with
  | nil => simp [dictSet, dictGet]
  | cons p rest ih =>
      by_cases h : p.1 = k
      · simp [dictSet, h, dictGet]
      · simp [dictSet, h, dictGet, ih]

lemma dictGet_dictSet_ne {α : Type} (d : List (String × α)) (k k' : String) (v : α)
    (h : k' ≠ k) : dictGet (dictSet d k v) k' = dictGet d k' := by
  have h' : k ≠ k' := fun hc => h hc.symm
  induction d with
  | nil => simp [dictSet, dictGet, h']
  | cons p rest ih =>
      by_cases hp : p.1 = k
      · simp [dictSet, hp, dictGet, h']
      · simp [dictSet, hp, dictGet, ih]

/-- A supervisor already holding a live worker for target "tgt" whose
buffer contains one post. -/
def botWithWorker : ChannelBot :=
  { managers := [("tgt", mgrIdle)]
    running_tasks := [0]
    next_task := 1 }

/-- Counterexample to C1 as stated: calling `ChannelBot.add_channel` for a
target that already has a live worker does not fail — it returns `True` —
and the registered worker for that target afterwards is a fresh one with an
empty buffer, where the original worker's buffer held a post. -/
theorem c1_duplicate_register_counterexample :
    (ChannelBot.add_channel botWithWorker "tgt" ["other"] 15 none none "agent-1" 100).2 =
        true ∧
    (dictGet (ChannelBot.add_channel botWithWorker "tgt" ["other"] 15 none none
        "agent-1" 100).1.managers "tgt").map (fun mg => mg.posts) = some [] ∧
    (dictGet botWithWorker.managers "tgt").map (fun mg => mg.posts) =
      some [postEx] := by
  refine ⟨rfl, by decide, by decide⟩

/-- Claim C1 (amended): `ChannelBot.add_channel` performs no duplicate
check: for every supervisor state — including one in which the target
already has a live worker — it records a fresh worker (empty buffer, new
last-flush time, no flush in flight) under the target, overwriting any
existing registration, leaves every other target's registration unchanged,
registers a new loop task, and returns `True`. -/
theorem c1_register_overwrites :
    ∀ (bot : ChannelBot) (target : String) (sources : List String) (interval : Int)
      (agent theme : Option String) (default_agent : String) (now : Int),
      (ChannelBot.add_channel bot target sources interval agent theme default_agent
          now).2 = true ∧
      (dictGet (ChannelBot.add_channel bot target sources interval agent theme
          default_agent now).1.managers target).map
          (fun mg => (mg.posts, mg.last_post_time, mg.posting_in_progress)) =
        some ([], now, false) ∧
      (∀ k, k ≠ target →
        dictGet (ChannelBot.add_channel bot target sources interval agent theme
            default_agent now).1.managers k = dictGet bot.managers k) ∧
      (ChannelBot.add_channel bot target sources interval agent theme default_agent
          now).1.running_tasks = bot.running_tasks ++ [bot.next_task] := by
  intro bot target sources interval agent theme default_agent now
  refine ⟨rfl, ?_, ?_, rfl⟩
  · show (dictGet (dictSet bot.managers target _) target).map _ = _
    rw [dictGet_dictSet_self]
    rfl
  · intro k hk
    exact dictGet_dictSet_ne bot.managers target k _ hk

/-- Witness for C1: re-registering "tgt" on `botWithWorker` leaves the
unrelated key "other" unregistered, exactly as before the call. -/
theorem c1_register_overwrites_witness :
    dictGet (ChannelBot.add_channel botWithWorker "tgt" ["s2"] 15 none none
        "agent-1" 100).1.managers "other" =
      dictGet botWithWorker.managers "other" :=
  (c1_register_overwrites botWithWorker "tgt" ["s2"] 15 none none
      "agent-1" 100).2.2.1 "other" (by decide)

/-- The supervisor state produced by registering one channel through the
real `ChannelBot.add_channel` on an empty bot: its manager was built by
`ChannelManager.__init__`, which never assigns the `posting_task`
attribute, and its loop task has id 0. -/
def botC5 : ChannelBot :=
  (ChannelBot.add_channel
      { managers := [], running_tasks := [], next_task := 0 }
      "tgt" ["src"] 5 none none "agent-1" 0).1

/-- Claim C5 (code evaluation at the failing input): when the supervision
loop of `ChannelBot.run` processes a worker task that terminated with an
error, the restart scan reads `manager.posting_task` — an attribute
`__init__` never assigns — so the scan raises `AttributeError` instead of
starting a replacement; the exception escapes the `while` loop and `run`'s
outer handler re-raises it, terminating the supervision loop. -/
theorem c5_restart_attribute_error :
    supervise_failed_task botC5 0 = Except.error PyErr.attributeError ∧
    (dictGet botC5.managers "tgt").isSome = true ∧
    botC5.running_tasks = [0] := by
  refine ⟨rfl, by decide, rfl⟩

/-- A supervisor with one registered worker (empty buffer) listening to
"src". -/
def botC6 : ChannelBot :=
  { managers := [("tgt", ChannelManager.new cfgEx 0)]
    running_tasks := [0]
    next_task := 1 }

/-- A service message originating from the matched source "src", carrying
text. -/
def msgService : Message :=
  { chat := some chatEx
    text := some "breaking news"
    caption := none
    service := true
    sponsor := false
    media := false
    media_group_id := none
    photo := false
    video := false
    document := false
    animation := false
    sticker := false
    date := 5
    link := some "https://t.me/src/5" }

/-- Counterexample to C6 as stated: an inbound post whose origin "src" is
in the registered worker's source list is not appended to that worker's
buffer — the whole supervisor state is unchanged — because the message is a
service message that `process_channel_post` drops. -/
theorem c6_fanout_counterexample :
    "src" ∈ cfgEx.source_channels ∧
    msgService.chat = some chatEx ∧
    handle_new_message botC6 msgService = botC6 ∧
    (dictGet botC6.managers "tgt").map (fun mg => mg.posts) = some [] := by
  refine ⟨by decide, rfl, by decide, by decide⟩

/-- Claim C6 (amended): `handle_new_message` routes an inbound message to
`process_channel_post` of every registered worker whose source list
contains the origin username, and when the message passes the per-message
checks (not a service or sponsored message, and carrying extractable text
or a recognised media kind) the corresponding post is appended to the
buffer of every matching worker — a single post fans out — while every
non-matching worker is untouched; both handlers absorb all errors, so
nothing propagates to the ingestion caller. -/
theorem c6_fanout_appends_content :
    ∀ (bot : ChannelBot) (m : Message) (chat : Chat),
      m.chat = some chat →
      pyStrTruthy chat.username = true →
      m.service = false →
      m.sponsor = false →
      (pyStrTruthy (extract_message_text m) = true ∨
        pyStrTruthy (detect_media_type m) = true) →
      (handle_new_message bot m).managers = bot.managers.map (fun p =>
        if (chat.username.getD "") ∈ p.2.config.source_channels then
          (p.1, { p.2 with posts := p.2.posts ++
              [{ channel_title := pyOrStr chat.title chat.username
                 text := extract_message_text m
                 date := m.date
                 link := m.link
                 media_type := detect_media_type m }] })
        else p) := by
  intro bot m chat hchat husr hserv hspon hcontent
  simp only [handle_new_message, hchat]
  rw [if_neg (by simp [husr])]
  show bot.managers.map _ = bot.managers.map _
  refine congrArg (fun f => List.map f bot.managers) (funext fun p => ?_)
  by_cases hmem : (chat.username.getD "") ∈ p.2.config.source_channels
  · rw [if_pos hmem, if_pos hmem]
    simp only [process_channel_post, hchat]
    rcases hcontent with h | h <;>
      simp [husr, hmem, hserv, hspon, h]
  · rw [if_neg hmem, if_neg hmem]

/-- A supervisor with two workers both listening to "src", so a single post
fans out to both. -/
def botTwoTargets : ChannelBot :=
  { managers := [("t1", ChannelManager.new cfgEx 0),
                 ("t2", ChannelManager.new { cfgEx with target_channel := "t2" } 0)]
    running_tasks := [0, 1]
    next_task := 2 }

/-- A captionless photo message from the matched source "src". -/
def msgStory : Message :=
  { chat := some chatEx
    text := none
    caption := none
    service := false
    sponsor := false
    media := true
    media_group_id := none
    photo := true
    video := false
    document := false
    animation := false
    sticker := false
    date := 9
    link := some "https://t.me/src/9" }

/-- Witness for C6: routing one photo message through a supervisor with two
matching workers appends the extracted post to both buffers. -/
theorem c6_fanout_appends_content_witness :
    (handle_new_message botTwoTargets msgStory).managers =
      botTwoTargets.managers.map (fun p =>
        if (chatEx.username.getD "") ∈ p.2.config.source_channels then
          (p.1, { p.2 with posts := p.2.posts ++
              [{ channel_title := pyOrStr chatEx.title chatEx.username
                 text := extract_message_text msgStory
                 date := msgStory.date
                 link := msgStory.link
                 media_type := detect_media_type msgStory }] })
        else p) :=
  c6_fanout_appends_content botTwoTargets msgStory chatEx rfl (by decide) rfl rfl
    (Or.inr (by decide))

/-- Counterexample to C7 as stated: the generation-service call
(`mistral.agents.complete`) appears in the body of
`create_and_post_digest` as a step that is NOT awaited, so it is not a
suspension point — the claim says it is. -/
theorem c7_generation_not_awaited_counterexample :
    (⟨"mistral.agents.complete", false⟩ : CoAction) ∈ produceBody ∧
    "mistral.agents.complete" ∉
      (produceBody.filter (fun a => a.isAwait)).map (fun a => a.name) := by
  decide

/-- Claim C7 (amended): the only suspension points inside
`create_and_post_digest` are the buffer-lock acquisition and the publish
call (`app.send_message`); the generation-service call is an ordinary
synchronous call that does not yield control, so a produce whose
generation call has long latency blocks the event loop — and with it every
other worker — until it returns. -/
theorem c7_awaited_calls :
    (produceBody.filter (fun a => a.isAwait)).map (fun a => a.name) =
      ["post_lock.acquire", "app.send_message"] := by
  decide
